import Mathlib

/-!
Verification of the task-manager backend: a shallow embedding of its data
model (users, groups, tasks), its Mongoose model methods, and the relevant
Express route handlers, together with proofs of the behavioural claims made
by the specification.  Object ids (Mongo ObjectIds) are embedded as strings,
timestamps as natural numbers, and the document store as lists of records.
-/

namespace TaskManager

/-! ### Role model (src/utils/roles.js) -/

/-- The three roles of `ROLES = { ADMIN: 'admin', MANAGER: 'manager', EMPLOYEE: 'employee' }`. -/
inductive Role where
  | admin
  | manager
  | employee
deriving DecidableEq, Repr

/-- The value strings of `Object.values(ROLES)`; `parseRole` is membership plus
selection, mirroring `Object.values(ROLES).includes(r)` on an already
lowercased string. -/
def parseRole (s : String) : Option Role :=
  if s = "admin" then some Role.admin
  else if s = "manager" then some Role.manager
  else if s = "employee" then some Role.employee
  else none

/-- `STATUSES = ["Todo", "InProgress", "Completed", "Closed"]`. -/
def STATUSES : List String := ["Todo", "InProgress", "Completed", "Closed"]

/-- `PRIORITIES = ["Low", "Medium", "High"]`. -/
def PRIORITIES : List String := ["Low", "Medium", "High"]

/-- JS truthiness on an optional string request field: `undefined`, `null` and
the empty string are all falsy, so `if (field)` enters its branch exactly when
the field is present and nonempty. -/
def jsTruthy (o : Option String) : Option String :=
  match o with
  | none => none
  | some s => if s = "" then none else some s

/-- `mongoose.isValidObjectId` on a hex string id: 24 hexadecimal characters.
Stored ids in the embedded store are assumed to be in this canonical form. -/
def isValidObjectId (s : String) : Bool :=
  s.length = 24 && s.data.all (fun c => c.isDigit || (c.isLower && c ≤ 'f'))

/-! ### Data model -/

/-- A stored user document (userSchema in src/models/User.js).  The password
field holds the opaquely stored credential; hashing is a black-box
collaborator, so password comparison is parameterised where needed. -/
structure UserRec where
  oid : String
  uid : Nat
  name : String
  email : String
  password : String
  role : Role
  isActive : Bool
deriving DecidableEq, Repr

/-- One entry of a group task ledger: the embedded subdocument
`{ taskId, status, assignedAt, assignedBy }` of groupSchema.tasks. -/
structure GroupTaskEntry where
  taskId : String
  status : String
  assignedAt : Nat
  assignedBy : String
deriving DecidableEq, Repr

/-- A stored group document (groupSchema in src/models/User.js). -/
structure GroupRec where
  oid : String
  gid : Nat
  title : String
  description : String
  lead : String
  members : List String
  tasks : List GroupTaskEntry
  createdBy : String
  isActive : Bool
deriving DecidableEq, Repr

/-- The task assignment subdocument `assignedTo : { user, group }` of
taskSchema: each reference is nullable. -/
structure Assignment where
  user : Option String
  group : Option String
deriving DecidableEq, Repr

/-- The live status record `{ status, updatedAt, updatedBy }` (statusSchema). -/
structure StatusRec where
  status : String
  updatedAt : Nat
  updatedBy : String
deriving DecidableEq, Repr

/-- One status-history entry `{ status, updatedAt, updatedBy, comment }`. -/
structure HistEntry where
  status : String
  updatedAt : Nat
  updatedBy : String
  comment : Option String
deriving DecidableEq, Repr

/-- One task comment `{ user, comment, createdAt }` (commentSchema). -/
structure CommentRec where
  user : String
  comment : String
  createdAt : Nat
deriving DecidableEq, Repr

/-- A stored task document, carrying exactly the paths declared by taskSchema
(src/models/Task.js lines 62-156).  There is no `isReopened` path in the
schema. -/
structure TaskRec where
  oid : String
  tid : Nat
  title : String
  description : String
  priority : String
  due : Option Nat
  createdBy : String
  comments : List CommentRec
  assignedTo : Assignment
  status : StatusRec
  statusHistory : List HistEntry
deriving DecidableEq, Repr

/-- The document store: one collection per model. -/
structure DB where
  users : List UserRec
  groups : List GroupRec
  tasks : List TaskRec
deriving Repr

/-- `User.findById` over the embedded store. -/
def findUserById (db : DB) (id : String) : Option UserRec :=
  db.users.find? (fun u => u.oid = id)

/-- `Group.findById` over the embedded store. -/
def findGroupById (db : DB) (id : String) : Option GroupRec :=
  db.groups.find? (fun g => g.oid = id)

/-! ### Task model methods (src/models/Task.js) -/

/-- `taskSchema.methods.addComment(userId, commentText)`: pushes
`{ user, comment }` onto the comment list; `createdAt` defaults to now. -/
def addComment (t : TaskRec) (userId : String) (commentText : String) (now : Nat) : TaskRec :=
  { t with comments := t.comments ++ [{ user := userId, comment := commentText, createdAt := now }] }

/-- `taskSchema.methods.updateStatus(newStatus, updatedBy, comment)`: when the
current status differs from the new one, the current status record is pushed
onto statusHistory together with the supplied comment, and the live status is
replaced by the new status with a fresh timestamp and updater; otherwise the
document is left unchanged. -/
def updateStatus (t : TaskRec) (newStatus : String) (updatedBy : String)
    (comment : Option String) (now : Nat) : TaskRec :=
  if t.status.status ≠ newStatus then
    { t with
      statusHistory := t.statusHistory ++
        [{ status := t.status.status
           updatedAt := t.status.updatedAt
           updatedBy := t.status.updatedBy
           comment := comment }]
      status := { status := newStatus, updatedAt := now, updatedBy := updatedBy } }
  else
    t

/-- `taskSchema.methods.assignUser(userId)`: sets `assignedTo` to
`{ user: userId, group: null }`. -/
def assignUser (t : TaskRec) (userId : String) : TaskRec :=
  { t with assignedTo := { user := some userId, group := none } }

/-- `taskSchema.methods.assignGroup(groupId)`: sets `assignedTo` to
`{ user: null, group: groupId }`. -/
def assignGroup (t : TaskRec) (groupId : String) : TaskRec :=
  { t with assignedTo := { user := none, group := some groupId } }

/-- `taskSchema.methods.removeAssignment()`: clears both references. -/
def removeAssignment (t : TaskRec) : TaskRec :=
  { t with assignedTo := { user := none, group := none } }

/-- `taskSchema.methods.isUserAssigned(userId)`. -/
def isUserAssigned (t : TaskRec) (userId : String) : Bool :=
  t.assignedTo.user = some userId

/-! ### Scoping engine (routes/tasks.js, restrictQueryByRole) -/

/-- The authenticated actor context attached by the auth middleware:
an id plus a normalized role. -/
structure Actor where
  oid : String
  role : Role
deriving DecidableEq, Repr

/-- Ids of the groups in which the user is lead or member:
`Group.find({ $or: [{ lead }, { members }] }).distinct("_id")`. -/
def managerGroupIds (groups : List GroupRec) (uid : String) : List String :=
  (groups.filter (fun g => g.lead = uid || decide (uid ∈ g.members))).map (fun g => g.oid)

/-- Ids of the groups whose member list contains the user:
`Group.find({ members: user._id }).distinct("_id")`. -/
def employeeGroupIds (groups : List GroupRec) (uid : String) : List String :=
  (groups.filter (fun g => decide (uid ∈ g.members))).map (fun g => g.oid)

/-- The Mongo filter built by `restrictQueryByRole`, one constructor per role
branch; the admin filter is the empty object. -/
inductive TaskScope where
  | all
  | managerScope (uid : String) (groupIds : List String)
  | employeeScope (uid : String) (groupIds : List String)
deriving DecidableEq, Repr

/-- `restrictQueryByRole(user)` of the task router: admin gets the empty
filter, a manager gets createdBy OR direct assignment OR assignment to one of
the groups they lead or belong to, an employee gets direct assignment OR
assignment to one of the groups they belong to (a two-step dependent query:
the group-id set is resolved first). -/
def restrictQueryByRole (groups : List GroupRec) (a : Actor) : TaskScope :=
  match a.role with
  | Role.admin => TaskScope.all
  | Role.manager => TaskScope.managerScope a.oid (managerGroupIds groups a.oid)
  | Role.employee => TaskScope.employeeScope a.oid (employeeGroupIds groups a.oid)

/-- Evaluation of the scope filter on a task document, following Mongo
semantics: `$or` of equality on `assignedTo.user` (never matched by a null
field), membership of `assignedTo.group` in the `$in` list (never matched by
a null field), and for managers equality on `createdBy`. -/
def scopeMatches (sc : TaskScope) (t : TaskRec) : Bool :=
  match sc with
  | TaskScope.all => true
  | TaskScope.managerScope uid gids =>
      t.createdBy = uid || t.assignedTo.user = some uid ||
        (match t.assignedTo.group with
         | some g => decide (g ∈ gids)
         | none => false)
  | TaskScope.employeeScope uid gids =>
      t.assignedTo.user = some uid ||
        (match t.assignedTo.group with
         | some g => decide (g ∈ gids)
         | none => false)

/-- The visibility condition for an Employee in the words of the
specification: the actor is the directly assigned user, or the task is
assigned to a group whose member set contains the actor. -/
def specEmployeeVisible (groups : List GroupRec) (uid : String) (t : TaskRec) : Prop :=
  t.assignedTo.user = some uid ∨
    ∃ g, g ∈ groups ∧ t.assignedTo.group = some g.oid ∧ uid ∈ g.members

/-! ### Task route handlers (effective routes/tasks.js) -/

/-- Route-level rejection: 400 invalid input, 403 forbidden, 404 not found. -/
inductive RouteErr where
  | invalidInput (msg : String)
  | forbidden (msg : String)
  | notFound (msg : String)
deriving DecidableEq, Repr

/-- Validation of the optional `assignedUserId` of the create-task body:
absent or falsy leaves the reference null, otherwise the id must be a valid
ObjectId resolving to an active user. -/
def validateAssignedUser (db : DB) (o : Option String) : Except RouteErr (Option String) :=
  match jsTruthy o with
  | none => Except.ok none
  | some u =>
    if ¬ isValidObjectId u then Except.error (RouteErr.invalidInput ("Invalid user ID: " ++ u))
    else
      match findUserById db u with
      | none => Except.error (RouteErr.invalidInput ("Invalid or inactive user: " ++ u))
      | some usr =>
        if usr.isActive then Except.ok (some u)
        else Except.error (RouteErr.invalidInput ("Invalid or inactive user: " ++ u))

/-- Validation of the optional `assignedGroupId`: absent or falsy leaves the
reference null, otherwise the id must resolve to an active group. -/
def validateAssignedGroup (db : DB) (o : Option String) : Except RouteErr (Option String) :=
  match jsTruthy o with
  | none => Except.ok none
  | some g =>
    if ¬ isValidObjectId g then Except.error (RouteErr.invalidInput ("Invalid group ID: " ++ g))
    else
      match findGroupById db g with
      | none => Except.error (RouteErr.invalidInput ("Invalid or inactive group: " ++ g))
      | some gr =>
        if gr.isActive then Except.ok (some g)
        else Except.error (RouteErr.invalidInput ("Invalid or inactive group: " ++ g))

/-- The create-task request body (`POST /tasks`).  `status` defaults to
"Todo" by destructuring. -/
structure CreateTaskReq where
  title : Option String
  description : Option String
  priority : Option String
  due : Option Nat
  status : Option String
  assignedUserId : Option String
  assignedGroupId : Option String
deriving DecidableEq, Repr

/-- `POST /tasks` (create task, the group-aware handler): only admin or
manager may create; title and description are required; naming both a user
and a group is rejected before any validation or write; priority and status
are checked against their enums; the optional assignee user and group are
validated to exist and be active; only then is the task created with
`assignedTo = { user: validatedUserId, group: validatedGroupId }` and an
initial status record attributed to the creator. -/
def createTaskRoute (db : DB) (actor : Actor) (req : CreateTaskReq)
    (now : Nat) (newOid : String) (newTid : Nat) : Except RouteErr TaskRec :=
  if ¬ (actor.role = Role.admin ∨ actor.role = Role.manager) then
    Except.error (RouteErr.forbidden "Only admin/manager can create tasks")
  else if (jsTruthy req.title).isNone || (jsTruthy req.description).isNone then
    Except.error (RouteErr.invalidInput "title and description are required")
  else if (jsTruthy req.assignedUserId).isSome && (jsTruthy req.assignedGroupId).isSome then
    Except.error (RouteErr.invalidInput "Task can be assigned to either a user OR a group, not both")
  else if (match jsTruthy req.priority with
           | some p => decide (p ∉ PRIORITIES)
           | none => false) then
    Except.error (RouteErr.invalidInput "priority must be one of Low, Medium, High")
  else if (match jsTruthy (some (req.status.getD "Todo")) with
           | some s => decide (s ∉ STATUSES)
           | none => false) then
    Except.error (RouteErr.invalidInput "status must be one of Todo, InProgress, Completed, Closed")
  else do
    let vUser ← validateAssignedUser db req.assignedUserId
    let vGroup ← validateAssignedGroup db req.assignedGroupId
    Except.ok
      { oid := newOid
        tid := newTid
        title := (jsTruthy req.title).getD ""
        description := (jsTruthy req.description).getD ""
        priority := (jsTruthy req.priority).getD "Medium"
        due := req.due
        createdBy := actor.oid
        comments := []
        assignedTo := { user := vUser, group := vGroup }
        status := { status := req.status.getD "Todo", updatedAt := now, updatedBy := actor.oid }
        statusHistory := [] }

/-- Effect of the create-task request on the task collection: `Task.create`
is only reached after all validations pass, so on any rejection the store is
unchanged. -/
def createTaskStore (db : DB) (actor : Actor) (req : CreateTaskReq)
    (now : Nat) (newOid : String) (newTid : Nat) : DB :=
  match createTaskRoute db actor req now newOid newTid with
  | Except.ok t => { db with tasks := db.tasks ++ [t] }
  | Except.error _ => db

/-- `PATCH /tasks/:id/assign`: only admin or manager; naming both a user and
a group is rejected before any lookup or write, as is naming neither; then
the named user or group is validated (exists and active) and the
corresponding model method performs the assignment. -/
def assignTaskRoute (db : DB) (actorRole : Role) (t : TaskRec)
    (userId groupId : Option String) : Except RouteErr TaskRec :=
  if ¬ (actorRole = Role.admin ∨ actorRole = Role.manager) then
    Except.error (RouteErr.forbidden "Only admin/manager can assign tasks")
  else
    match jsTruthy userId, jsTruthy groupId with
    | some _, some _ =>
      Except.error (RouteErr.invalidInput "Task can be assigned to either a user OR a group, not both")
    | none, none =>
      Except.error (RouteErr.invalidInput "Either userId or groupId must be provided")
    | some u, none =>
      if ¬ isValidObjectId u then Except.error (RouteErr.invalidInput ("Invalid user ID: " ++ u))
      else
        match findUserById db u with
        | none => Except.error (RouteErr.invalidInput ("Invalid or inactive user: " ++ u))
        | some usr =>
          if usr.isActive then Except.ok (assignUser t u)
          else Except.error (RouteErr.invalidInput ("Invalid or inactive user: " ++ u))
    | none, some g =>
      if ¬ isValidObjectId g then Except.error (RouteErr.invalidInput ("Invalid group ID: " ++ g))
      else
        match findGroupById db g with
        | none => Except.error (RouteErr.invalidInput ("Invalid or inactive group: " ++ g))
        | some gr =>
          if gr.isActive then Except.ok (assignGroup t g)
          else Except.error (RouteErr.invalidInput ("Invalid or inactive group: " ++ g))

/-- The `assigneeId` branch of `PATCH /tasks/:id`: a falsy assigneeId removes
the assignment, otherwise the id must resolve to an active user and the task
is assigned to that user. -/
def patchAssigneePath (db : DB) (t : TaskRec) (assigneeId : Option String) : Except RouteErr TaskRec :=
  match jsTruthy assigneeId with
  | none => Except.ok (removeAssignment t)
  | some a =>
    if ¬ isValidObjectId a then Except.error (RouteErr.invalidInput ("Invalid user ID: " ++ a))
    else
      match findUserById db a with
      | none => Except.error (RouteErr.invalidInput ("Invalid or inactive user: " ++ a))
      | some u =>
        if u.isActive then Except.ok (assignUser t a)
        else Except.error (RouteErr.invalidInput ("Invalid or inactive user: " ++ a))

/-- One assignment-mutating operation on a task: a direct model method, the
assign endpoint, or the assigneeId branch of the field-update endpoint. -/
inductive AssignOp where
  | opAssignUser (u : String)
  | opAssignGroup (g : String)
  | opRemove
  | opEndpoint (userId groupId : Option String)
  | opPatchAssignee (assigneeId : Option String)
deriving DecidableEq, Repr

/-- Apply one assignment operation; a rejected endpoint call leaves the task
unchanged (the rejection happens before any write). -/
def applyAssignOp (db : DB) (actorRole : Role) (t : TaskRec) : AssignOp → TaskRec
  | AssignOp.opAssignUser u => assignUser t u
  | AssignOp.opAssignGroup g => assignGroup t g
  | AssignOp.opRemove => removeAssignment t
  | AssignOp.opEndpoint u g =>
    match assignTaskRoute db actorRole t u g with
    | Except.ok t' => t'
    | Except.error _ => t
  | AssignOp.opPatchAssignee a =>
    match patchAssigneePath db t a with
    | Except.ok t' => t'
    | Except.error _ => t

/-- The tagged-union invariant: the user and the group reference are never
both non-null. -/
def assignmentConsistent (a : Assignment) : Bool :=
  ! (a.user.isSome && a.group.isSome)

/-! ### Comment route (POST /tasks/:id/comments) -/

/-- A value spread into a query-object literal.  `restrictQueryByRole` in the
effective task router is an async function; the comment handler calls it
without `await`, so what is spread is the still-pending Promise object, whose
own enumerable properties are empty, rather than the resolved filter. -/
inductive Spreadable where
  | awaited (sc : TaskScope)
  | pendingPromise (sc : TaskScope)
deriving DecidableEq, Repr

/-- JS object spread: an awaited filter object contributes its conditions; a
pending Promise contributes no own enumerable properties, leaving the filter
unrestricted. -/
def spreadIntoFilter : Spreadable → TaskScope
  | Spreadable.awaited sc => sc
  | Spreadable.pendingPromise _ => TaskScope.all

/-- `trim()` as a structural character-list operation: strip whitespace from
both ends. -/
def jsTrim (s : String) : String :=
  String.mk (((s.data.dropWhile Char.isWhitespace).reverse.dropWhile Char.isWhitespace).reverse)

/-- A purely numeric path segment (`/^\d+$/`). -/
def isNumericStr (s : String) : Bool :=
  ! s.isEmpty && s.data.all Char.isDigit

/-- Dual-mode task lookup under a scope filter: a purely numeric id is looked
up as the sequential `tid`, otherwise as the opaque `_id`. -/
def findTaskScoped (db : DB) (sc : TaskScope) (idParam : String) : Option TaskRec :=
  if isNumericStr idParam then
    match idParam.toNat? with
    | some n => db.tasks.find? (fun t => scopeMatches sc t && t.tid = n)
    | none => none
  else if isValidObjectId idParam then
    db.tasks.find? (fun t => scopeMatches sc t && t.oid = idParam)
  else
    none

/-- `POST /tasks/:id/comments`: requires a nonempty comment, then finds the
task through the filter built from `const base = restrictQueryByRole(req.user)`
spread into the query.  The call is not awaited, so the spread Promise
contributes nothing and the lookup is effectively unscoped; on success the
trimmed comment is appended with the actor as author. -/
def addCommentRoute (db : DB) (actor : Actor) (idParam : String)
    (comment : String) (now : Nat) : Except RouteErr TaskRec :=
  if jsTrim comment = "" then Except.error (RouteErr.invalidInput "Comment is required")
  else
    let base := spreadIntoFilter (Spreadable.pendingPromise (restrictQueryByRole db.groups actor))
    match findTaskScoped db base idParam with
    | none => Except.error (RouteErr.notFound "Task not found")
    | some t => Except.ok (addComment t actor.oid (jsTrim comment) now)

/-! ### Reopen route (POST /tasks/reopen/:taskId) -/

/-- A hydrated task document as the route handlers see it: the schema paths
plus any plain JS property set on the object.  `isReopened` is such a
property: it is not declared in taskSchema. -/
structure TaskMemDoc where
  doc : TaskRec
  isReopened : Bool
deriving DecidableEq, Repr

/-- The reopen handler body: sets the live status string to "Todo", sets the
`isReopened` property on the document object, and pushes one history entry
`{ status: "Todo", updatedAt: now, updatedBy: actor, comment: "Task reopened" }`. -/
def reopenRoute (t : TaskRec) (actorId : String) (now : Nat) : TaskMemDoc :=
  { doc :=
      { t with
        status := { t.status with status := "Todo" }
        statusHistory := t.statusHistory ++
          [{ status := "Todo", updatedAt := now, updatedBy := actorId, comment := some "Task reopened" }] }
    isReopened := true }

/-- Mongoose save under the default strict mode: only paths declared in the
schema are persisted; a property outside the schema (such as `isReopened`,
absent from taskSchema) is silently dropped. -/
def strictSave (m : TaskMemDoc) : TaskRec :=
  m.doc

/-- Hydrating a stored task yields only schema paths; reading a non-schema
property on the hydrated document yields `undefined` (falsy). -/
def loadTask (t : TaskRec) : TaskMemDoc :=
  { doc := t, isReopened := false }

/-! ### Group model (groupSchema in src/models/User.js) -/

/-- The second `groupSchema.pre("save")` hook: if the lead is not already in
the member list it is pushed (ObjectId-aware `includes`). -/
def groupPreSaveLead (g : GroupRec) : GroupRec :=
  if g.lead ∈ g.members then g else { g with members := g.members ++ [g.lead] }

/-- Update the first ledger entry whose taskId matches, as `Array.find`
followed by in-place mutation does. -/
def updateFirstEntry (taskId assignedBy status : String) (now : Nat) :
    List GroupTaskEntry → List GroupTaskEntry
  | [] => []
  | e :: rest =>
    if e.taskId = taskId then
      { e with status := status, assignedBy := assignedBy, assignedAt := now } :: rest
    else
      e :: updateFirstEntry taskId assignedBy status now rest

/-- `groupSchema.methods.addTask(taskId, assignedBy, status)`: when an entry
with the same task id already exists it is updated in place (no rejection);
otherwise a fresh entry is pushed. -/
def groupAddTask (g : GroupRec) (taskId assignedBy : String) (status : String) (now : Nat) : GroupRec :=
  if g.tasks.any (fun e => e.taskId = taskId) then
    { g with tasks := updateFirstEntry taskId assignedBy status now g.tasks }
  else
    { g with tasks := g.tasks ++ [{ taskId := taskId, status := status, assignedAt := now, assignedBy := assignedBy }] }

/-! ### Group routes (src/routes/groups.js) -/

/-- Insertion-order deduplication, as `[...new Set(list)]` produces. -/
def jsSetDedup (l : List String) : List String :=
  go l []
where
  go : List String → List String → List String
    | [], _ => []
    | a :: rest, seen =>
      if a ∈ seen then go rest seen
      else a :: go rest (a :: seen)

/-- Member-list validation loop of the group routes: every id must be a valid
ObjectId resolving to an active user whose role is manager or employee; the
resolved ids are collected in order. -/
def validateMembers (db : DB) : List String → Except RouteErr (List String)
  | [] => Except.ok []
  | m :: rest =>
    if ¬ isValidObjectId m then Except.error (RouteErr.invalidInput ("Invalid member ID: " ++ m))
    else
      match findUserById db m with
      | none => Except.error (RouteErr.invalidInput ("Invalid or inactive member: " ++ m))
      | some u =>
        if ¬ u.isActive then Except.error (RouteErr.invalidInput ("Invalid or inactive member: " ++ m))
        else if ¬ (u.role = Role.manager ∨ u.role = Role.employee) then
          Except.error (RouteErr.invalidInput "Member must be a manager or employee")
        else do
          let rest' ← validateMembers db rest
          Except.ok (u.oid :: rest')

/-- The create-group request body (`POST /groups`): the route reads `name`
as the title; `memberIds` is modelled in its array form (the loop that
validates members only runs on an array value). -/
structure CreateGroupReq where
  name : Option String
  description : Option String
  leadId : Option String
  memberIds : List String
deriving DecidableEq, Repr

/-- `POST /groups`: only admin or manager; title, description and leadId are
required; the lead must resolve to an active manager; every member must
resolve to an active manager or employee; the stored member list is
`[...new Set([...validMembers, leadId])]`, and the save then runs the
pre-save lead hook. -/
def createGroupRoute (db : DB) (actor : Actor) (req : CreateGroupReq)
    (newOid : String) (newGid : Nat) : Except RouteErr GroupRec :=
  if ¬ (actor.role = Role.admin ∨ actor.role = Role.manager) then
    Except.error (RouteErr.forbidden "Only admin/manager can create groups")
  else
    match jsTruthy req.name, jsTruthy req.description, jsTruthy req.leadId with
    | some title, some desc, some leadId =>
      if ¬ isValidObjectId leadId then
        Except.error (RouteErr.invalidInput "leadId must be a valid user ObjectId")
      else
        (match findUserById db leadId with
         | none => Except.error (RouteErr.invalidInput "Lead must be an active manager")
         | some lead =>
           if ¬ (lead.isActive ∧ lead.role = Role.manager) then
             Except.error (RouteErr.invalidInput "Lead must be an active manager")
           else do
             let validMembers ← validateMembers db req.memberIds
             Except.ok (groupPreSaveLead
               { oid := newOid
                 gid := newGid
                 title := title
                 description := desc
                 lead := leadId
                 members := jsSetDedup (validMembers ++ [leadId])
                 tasks := []
                 createdBy := actor.oid
                 isActive := true }))
    | _, _, _ =>
      Except.error (RouteErr.invalidInput "title, description, and leadId are required")

/-- The update-group request body (`PATCH /groups/:id`): presence of a field
is what the route tests (`!== undefined` / `Array.isArray`). -/
structure UpdateGroupReq where
  title : Option String
  description : Option String
  leadId : Option String
  memberIds : Option (List String)
  isActive : Option Bool
deriving DecidableEq, Repr

/-- The lead branch of the group update: a submitted lead id must be well
formed and resolve to an active manager. -/
def validateLeadUpdate (db : DB) (opt : Option String) : Except RouteErr (Option String) :=
  match opt with
  | none => Except.ok none
  | some l =>
    if ¬ isValidObjectId l then
      Except.error (RouteErr.invalidInput "leadId must be a valid user ObjectId")
    else
      match findUserById db l with
      | none => Except.error (RouteErr.invalidInput "New lead must be an active manager")
      | some u =>
        if u.isActive ∧ u.role = Role.manager then Except.ok (some l)
        else Except.error (RouteErr.invalidInput "New lead must be an active manager")

/-- The members branch of the group update: a submitted list is validated and
extended with the current lead (the updated one when a lead change was also
submitted), then deduplicated in insertion order. -/
def computeMembersUpdate (db : DB) (updLead : Option String) (gLead : String)
    (opt : Option (List String)) : Except RouteErr (Option (List String)) :=
  match opt with
  | none => Except.ok none
  | some ms => do
    let valid ← validateMembers db ms
    Except.ok (some (jsSetDedup (valid ++ [updLead.getD gLead])))

/-- `PATCH /groups/:id` on an already looked up group: permitted to admin,
the creator, or the current lead; a submitted lead must resolve to an active
manager; a submitted member list is validated and then stored as
`[...new Set([...validMembers, currentLead])]` where `currentLead` is the
updated lead when one was submitted, else the existing one; a request with no
recognized field is rejected; finally the document is saved, running the
pre-save lead hook. -/
def updateGroupRoute (db : DB) (g : GroupRec) (actor : Actor) (req : UpdateGroupReq) :
    Except RouteErr GroupRec :=
  if ¬ (actor.role = Role.admin ∨ g.createdBy = actor.oid ∨ g.lead = actor.oid) then
    Except.error (RouteErr.forbidden "Only admin, group creator, or group lead can modify this group")
  else do
    let updLead ← validateLeadUpdate db req.leadId
    let updMembers ← computeMembersUpdate db updLead g.lead req.memberIds
    if req.title.isNone ∧ req.description.isNone ∧ req.isActive.isNone ∧
       updLead.isNone ∧ updMembers.isNone then
      Except.error (RouteErr.invalidInput "No valid fields to update")
    else
      Except.ok (groupPreSaveLead
        { g with
          title := req.title.getD g.title
          description := req.description.getD g.description
          isActive := req.isActive.getD g.isActive
          lead := updLead.getD g.lead
          members := updMembers.getD g.members })

/-! ### Add task to group (PATCH /groups/:id/tasks)

The route guards duplicates with `group.tasks.includes(taskId)`.  The
elements of `group.tasks` are embedded subdocuments, while `taskId` is the id
string from the request body; the Mongoose array `includes`/`indexOf`
compares them with JS loose equality, which coerces the subdocument to its
object string rendering.  That rendering begins with an opening brace, so it
can never equal a 24-character hex ObjectId string. -/

/-- The primitive (string) coercion of a ledger subdocument, as used by the
loose-equality comparison inside `includes`: an object rendering that starts
with an opening brace. -/
def entryRender (e : GroupTaskEntry) : String :=
  String.mk ('\x7b' :: (" taskId: " ++ e.taskId ++ ", status: " ++ e.status ++ " \x7d").data)

/-- JS loose equality between the id string of the request and one ledger
subdocument: the subdocument is coerced to its string rendering and compared
as a string. -/
def jsLooseEqIdEntry (idStr : String) (e : GroupTaskEntry) : Bool :=
  idStr = entryRender e

/-- The duplicate guard `group.tasks.includes(taskId)` of the route. -/
def addTaskDuplicateCheck (g : GroupRec) (taskId : String) : Bool :=
  g.tasks.any (fun e => jsLooseEqIdEntry taskId e)

/-- Outcome of `PATCH /groups/:id/tasks` up to its write: either one of the
rejections, or control reaches `group.tasks.push(taskId)`. -/
inductive AddTaskResult where
  | badRequest (msg : String)
  | notFound
  | forbiddenRes (msg : String)
  | duplicateRejected
  | pushAttempted (taskId : String)
deriving DecidableEq, Repr

/-- `PATCH /groups/:id/tasks` on an optionally found group: taskId required
and well formed; group must exist; only admin, the creator, or the lead may
add; then the duplicate guard decides between the 400 conflict and the push. -/
def addTaskToGroupRoute (gOpt : Option GroupRec) (actor : Actor) (taskId : Option String) :
    AddTaskResult :=
  match jsTruthy taskId with
  | none => AddTaskResult.badRequest "taskId is required"
  | some tid =>
    if ¬ isValidObjectId tid then AddTaskResult.badRequest "taskId must be a valid ObjectId"
    else
      match gOpt with
      | none => AddTaskResult.notFound
      | some g =>
        if ¬ (actor.role = Role.admin ∨ g.createdBy = actor.oid ∨ g.lead = actor.oid) then
          AddTaskResult.forbiddenRes "Only admin, group creator, or group lead can add tasks"
        else if addTaskDuplicateCheck g tid then
          AddTaskResult.duplicateRejected
        else
          AddTaskResult.pushAttempted tid

/-! ### User listing (routes/users.js, GET /) -/

/-- Outcome of the user listing: the filtered users, a 400 invalid-filter
rejection, or a 403 forbidden rejection. -/
inductive ListUsersResult where
  | ok (users : List UserRec)
  | invalidFilter
  | forbiddenRes
deriving DecidableEq, Repr

/-- `toLowerCase()` as a structural character map. -/
def jsToLower (s : String) : String :=
  String.mk (s.data.map Char.toLower)

/-- `GET /users`: a truthy role query value is lowercased and checked against
the known role set (400 on an unknown value); a manager may only filter by
employee (403 otherwise); with no filter a manager defaults to employees
only, while other roles see all users. -/
def listUsersRoute (db : DB) (actorRole : Role) (roleQ : Option String) : ListUsersResult :=
  match jsTruthy roleQ with
  | some role =>
    let r := jsToLower role
    match parseRole r with
    | none => ListUsersResult.invalidFilter
    | some rr =>
      if actorRole = Role.manager ∧ rr ≠ Role.employee then ListUsersResult.forbiddenRes
      else ListUsersResult.ok (db.users.filter (fun u => u.role = rr))
  | none =>
    if actorRole = Role.manager then
      ListUsersResult.ok (db.users.filter (fun u => u.role = Role.employee))
    else
      ListUsersResult.ok db.users

/-! ### Auth gateway (POST /auth/login and the authenticate middleware) -/

/-- The signed token payload `{ id, role }`; signing and verification are the
black-box credential primitive, so a verified token is identified with its
payload. -/
structure JwtPayload where
  id : String
  role : Role
deriving DecidableEq, Repr

/-- The client projection `toClient()` of a user: the password is never
exposed. -/
structure UserClient where
  id : String
  uid : Nat
  name : String
  email : String
  role : Role
  isActive : Bool
deriving DecidableEq, Repr

/-- `userSchema.methods.toClient`. -/
def toClient (u : UserRec) : UserClient :=
  { id := u.oid, uid := u.uid, name := u.name, email := u.email, role := u.role, isActive := u.isActive }

/-- Outcome of `POST /auth/login`. -/
inductive LoginResult where
  | badRequest
  | invalidCredentials
  | ok (token : JwtPayload) (user : UserClient)
deriving DecidableEq, Repr

/-- `POST /auth/login`: requires both fields, finds the user by email and
compares the password through the hashing collaborator (passed as a
parameter).  No activity check is made: the route issues a token for any
credential match. -/
def login (compare : String → String → Bool) (db : DB) (email pw : String) : LoginResult :=
  if email = "" ∨ pw = "" then LoginResult.badRequest
  else
    match db.users.find? (fun u => u.email = email) with
    | none => LoginResult.invalidCredentials
    | some u =>
      if compare pw u.password then LoginResult.ok { id := u.oid, role := u.role } (toClient u)
      else LoginResult.invalidCredentials

/-- The actor context the middleware attaches to the request. -/
structure ActorCtx where
  oid : String
  uid : Nat
  role : Role
  name : String
  email : String
deriving DecidableEq, Repr

/-- The `authenticate` middleware on a verified bearer token (absence of a
token, or a token failing verification, is the `none` case): the resolved
user must exist and be active, otherwise the request is rejected 401. -/
def authenticate (db : DB) (token : Option JwtPayload) : Except String ActorCtx :=
  match token with
  | none => Except.error "No token provided"
  | some p =>
    match findUserById db p.id with
    | none => Except.error "Invalid token"
    | some u =>
      if ¬ u.isActive then Except.error "Invalid token"
      else Except.ok { oid := u.oid, uid := u.uid, role := u.role, name := u.name, email := u.email }

/-! ### Concrete fixtures used to instantiate the theorems -/

/-- A canonical admin id. -/
def oidAdmin : String := "aaaaaaaaaaaaaaaaaaaaaaaa"

/-- A canonical manager id. -/
def oidManager : String := "bbbbbbbbbbbbbbbbbbbbbbbb"

/-- Id of employee E. -/
def oidEmpE : String := "cccccccccccccccccccccccc"

/-- Id of employee F. -/
def oidEmpF : String := "dddddddddddddddddddddddd"

/-- Id of a demo task. -/
def oidTask : String := "eeeeeeeeeeeeeeeeeeeeeeee"

/-- Id of a demo group. -/
def oidGroup : String := "ffffffffffffffffffffffff"

/-- Demo admin user. -/
def userAdmin : UserRec :=
  { oid := oidAdmin, uid := 1, name := "Ada", email := "ada@x.com", password := "pw1"
    role := Role.admin, isActive := true }

/-- Demo manager user. -/
def userManager : UserRec :=
  { oid := oidManager, uid := 2, name := "Max", email := "max@x.com", password := "pw2"
    role := Role.manager, isActive := true }

/-- Demo employee E (directly assigned to the demo task). -/
def userEmpE : UserRec :=
  { oid := oidEmpE, uid := 3, name := "Eve", email := "eve@x.com", password := "pw3"
    role := Role.employee, isActive := true }

/-- Demo employee F: active, but with no assignment relation to the demo
task. -/
def userEmpF : UserRec :=
  { oid := oidEmpF, uid := 4, name := "Fay", email := "fay@x.com", password := "pw4"
    role := Role.employee, isActive := true }

/-- A deactivated employee, for the login/deactivation claim. -/
def userInactive : UserRec :=
  { oid := "abcdefabcdefabcdefabcdef", uid := 5, name := "Ida", email := "ida@x.com"
    password := "pw5", role := Role.employee, isActive := false }

/-- A demo task created by the manager and directly assigned to employee E. -/
def taskDemo : TaskRec :=
  { oid := oidTask, tid := 1, title := "T", description := "D", priority := "Medium"
    due := none, createdBy := oidManager, comments := []
    assignedTo := { user := some oidEmpE, group := none }
    status := { status := "Todo", updatedAt := 0, updatedBy := oidManager }
    statusHistory := [] }

/-- A terminal demo task, used for the reopen claim. -/
def taskDone : TaskRec :=
  { taskDemo with oid := "abababababababababababab", tid := 2
                  status := { status := "Completed", updatedAt := 10, updatedBy := oidEmpE } }

/-- A demo group led by the manager whose ledger already holds the demo task. -/
def groupDemo : GroupRec :=
  { oid := oidGroup, gid := 1, title := "G", description := "d", lead := oidManager
    members := [oidManager, oidEmpE]
    tasks := [{ taskId := oidTask, status := "Todo", assignedAt := 0, assignedBy := oidManager }]
    createdBy := oidManager, isActive := true }

/-- The demo store. -/
def dbDemo : DB :=
  { users := [userAdmin, userManager, userEmpE, userEmpF, userInactive]
    groups := [groupDemo]
    tasks := [taskDemo, taskDone] }

/-- The admin actor context. -/
def actorAdmin : Actor := { oid := oidAdmin, role := Role.admin }

/-- The manager actor context. -/
def actorManager : Actor := { oid := oidManager, role := Role.manager }

/-- The actor context of employee F. -/
def actorEmpF : Actor := { oid := oidEmpF, role := Role.employee }

/-! ## Theorems -/

/-- C2: a status update to a different status appends exactly one history
entry holding the prior status record (status, timestamp, updater) plus the
supplied comment, and replaces the live status with the new status, a fresh
timestamp and the new updater; an update to the same status changes nothing. -/
theorem updateStatus_history_spec (t : TaskRec) (s u : String) (c : Option String) (now : Nat) :
    (t.status.status ≠ s →
      (updateStatus t s u c now).statusHistory =
          t.statusHistory ++
            [{ status := t.status.status, updatedAt := t.status.updatedAt
               updatedBy := t.status.updatedBy, comment := c }] ∧
      (updateStatus t s u c now).status = { status := s, updatedAt := now, updatedBy := u }) ∧
    (t.status.status = s → updateStatus t s u c now = t) := by
  constructor
  · intro h
    constructor
    · simp [updateStatus, h]
    · simp [updateStatus, h]
  · intro h
    simp [updateStatus, h]

/-- Witness for C2 at a concrete transition and a concrete no-op. -/
theorem updateStatus_history_spec_witness :
    (taskDemo.status.status ≠ "Completed" ∧
      (updateStatus taskDemo "Completed" oidEmpE (some "done") 7).statusHistory =
          taskDemo.statusHistory ++
            [{ status := taskDemo.status.status, updatedAt := taskDemo.status.updatedAt
               updatedBy := taskDemo.status.updatedBy, comment := some "done" }] ∧
      (updateStatus taskDemo "Completed" oidEmpE (some "done") 7).status =
          { status := "Completed", updatedAt := 7, updatedBy := oidEmpE }) ∧
    (taskDemo.status.status = "Todo" ∧
      updateStatus taskDemo "Todo" oidEmpE none 7 = taskDemo) :=
  ⟨⟨by decide, (updateStatus_history_spec taskDemo "Completed" oidEmpE (some "done") 7).1 (by decide)⟩,
   ⟨by decide, (updateStatus_history_spec taskDemo "Todo" oidEmpE none 7).2 (by decide)⟩⟩

/-- C3: the employee scope filter matches a task exactly when the actor is
the directly assigned user or the task is assigned to a group of the store
whose member set contains the actor; in particular a task with no assignment
relation to the actor is never matched, whoever created it. -/
theorem employee_scope_characterization (groups : List GroupRec) (uid : String) (t : TaskRec) :
    scopeMatches (restrictQueryByRole groups { oid := uid, role := Role.employee }) t = true ↔
      specEmployeeVisible groups uid t := by
  simp only [restrictQueryByRole, scopeMatches, specEmployeeVisible]
  cases hg : t.assignedTo.group with
  | none =>
    simp [hg]
  | some gid =>
    simp only [hg, Bool.or_eq_true, decide_eq_true_eq, employeeGroupIds,
      List.mem_map, List.mem_filter, Option.some.injEq]
    constructor
    · rintro (hu | ⟨g, ⟨hgmem, hgdec⟩, hoid⟩)
      · exact Or.inl hu
      · exact Or.inr ⟨g, hgmem, hoid.symm, by simpa using hgdec⟩
    · rintro (hu | ⟨g, hgmem, hoid, hmem⟩)
      · exact Or.inl hu
      · exact Or.inr ⟨g, ⟨hgmem, by simpa using hmem⟩, hoid.symm⟩

/-- C8: a manager listing users with no role filter gets only employees; a
manager submitting a known role filter other than employee is rejected with
the 403 Forbidden outcome; a role filter value outside the known role set is
rejected with the 400 invalid-filter outcome, not an empty list. -/
theorem listUsers_manager_filtering (db : DB) :
    (∀ l, listUsersRoute db Role.manager none = ListUsersResult.ok l →
        ∀ u ∈ l, u.role = Role.employee) ∧
    (∀ s r, s ≠ "" → parseRole (jsToLower s) = some r → r ≠ Role.employee →
        listUsersRoute db Role.manager (some s) = ListUsersResult.forbiddenRes) ∧
    (∀ s, s ≠ "" → parseRole (jsToLower s) = none →
        listUsersRoute db Role.manager (some s) = ListUsersResult.invalidFilter) := by
  refine ⟨?_, ?_, ?_⟩
  · intro l h u hu
    have h' : ListUsersResult.ok (db.users.filter (fun x => x.role = Role.employee)) =
        ListUsersResult.ok l := by
      simpa [listUsersRoute, jsTruthy] using h
    cases h'
    exact of_decide_eq_true (List.mem_filter.mp hu).2
  · intro s r hs hr hne
    simp [listUsersRoute, jsTruthy, hs, hr, hne]
  · intro s hs hr
    simp [listUsersRoute, jsTruthy, hs, hr]

/-- Witness for C8: the demo store, the filter value "manager" (known,
rejected Forbidden) and the filter value "wizard" (unknown, rejected as an
invalid filter), plus the default employee-only listing. -/
theorem listUsers_manager_filtering_witness :
    (listUsersRoute dbDemo Role.manager none = ListUsersResult.ok [userEmpE, userEmpF, userInactive] ∧
      ∀ u ∈ [userEmpE, userEmpF, userInactive], u.role = Role.employee) ∧
    listUsersRoute dbDemo Role.manager (some "manager") = ListUsersResult.forbiddenRes ∧
    listUsersRoute dbDemo Role.manager (some "wizard") = ListUsersResult.invalidFilter :=
  ⟨⟨by decide,
    (listUsers_manager_filtering dbDemo).1 [userEmpE, userEmpF, userInactive] (by decide)⟩,
   (listUsers_manager_filtering dbDemo).2.1 "manager" Role.manager (by decide) (by decide) (by decide),
   (listUsers_manager_filtering dbDemo).2.2 "wizard" (by decide) (by decide)⟩

/-- C10: login succeeds, returning a signed token payload and the client
projection, for any stored user matching the submitted email whose password
comparison succeeds, with no reference to the active flag; the inactive check
lives only in the authenticate middleware, which rejects a token resolving to
an inactive user. -/
theorem login_ignores_inactive :
    (∀ (compare : String → String → Bool) (db : DB) (email pw : String) (u : UserRec),
        email ≠ "" → pw ≠ "" →
        db.users.find? (fun x => x.email = email) = some u →
        compare pw u.password = true →
        login compare db email pw = LoginResult.ok { id := u.oid, role := u.role } (toClient u)) ∧
    (∀ (db : DB) (p : JwtPayload) (u : UserRec),
        findUserById db p.id = some u → u.isActive = false →
        authenticate db (some p) = Except.error "Invalid token") := by
  constructor
  · intro compare db email pw u he hp hf hc
    simp [login, he, hp, hf, hc]
  · intro db p u hf hi
    simp [authenticate, hf, hi]

/-- Witness for C10: the deactivated demo user logs in successfully, and the
middleware rejects the very token that login issued for it. -/
theorem login_ignores_inactive_witness :
    userInactive.isActive = false ∧
    login (fun c s => c = s) dbDemo "ida@x.com" "pw5" =
      LoginResult.ok { id := userInactive.oid, role := userInactive.role } (toClient userInactive) ∧
    authenticate dbDemo (some { id := userInactive.oid, role := userInactive.role }) =
      Except.error "Invalid token" :=
  ⟨by decide,
   login_ignores_inactive.1 (fun c s => c = s) dbDemo "ida@x.com" "pw5" userInactive
     (by decide) (by decide) (by decide) (by decide),
   login_ignores_inactive.2 dbDemo { id := userInactive.oid, role := userInactive.role }
     userInactive (by decide) (by decide)⟩

/-- Membership of the insertion-order dedup worker: an element is kept
exactly when it occurs in the remaining input and was not seen yet. -/
theorem mem_jsSetDedup_go (x : String) :
    ∀ (l seen : List String), x ∈ jsSetDedup.go l seen ↔ (x ∈ l ∧ x ∉ seen) := by
  intro l
  induction l with
  | nil => intro seen; simp [jsSetDedup.go]
  | cons a rest ih =>
    intro seen
    by_cases ha : a ∈ seen
    · rw [jsSetDedup.go, if_pos ha, ih]
      constructor
      · rintro ⟨h1, h2⟩
        exact ⟨List.mem_cons_of_mem _ h1, h2⟩
      · rintro ⟨h1, h2⟩
        rcases List.mem_cons.mp h1 with h | h
        · exact absurd (h ▸ ha) h2
        · exact ⟨h, h2⟩
    · rw [jsSetDedup.go, if_neg ha]
      constructor
      · intro hx
        rcases List.mem_cons.mp hx with rfl | hx
        · exact ⟨List.mem_cons_self _ _, ha⟩
        · obtain ⟨h1, h2⟩ := (ih (a :: seen)).mp hx
          exact ⟨List.mem_cons_of_mem _ h1, fun hs => h2 (List.mem_cons_of_mem _ hs)⟩
      · rintro ⟨h1, h2⟩
        rcases List.mem_cons.mp h1 with rfl | h1
        · exact List.mem_cons_self _ _
        · by_cases hxa : x = a
          · exact hxa ▸ List.mem_cons_self _ _
          · refine List.mem_cons_of_mem _ ((ih (a :: seen)).mpr ⟨h1, ?_⟩)
            intro hs
            rcases List.mem_cons.mp hs with h | h
            · exact hxa h
            · exact h2 h

/-- Membership through `[...new Set(list)]`. -/
theorem mem_jsSetDedup (x : String) (l : List String) : x ∈ jsSetDedup l ↔ x ∈ l := by
  rw [jsSetDedup, mem_jsSetDedup_go]
  simp

/-- The pre-save hook establishes the lead-in-members invariant on any saved
group document. -/
theorem lead_mem_groupPreSaveLead (g : GroupRec) :
    (groupPreSaveLead g).lead ∈ (groupPreSaveLead g).members := by
  unfold groupPreSaveLead
  split
  · assumption
  · simp

/-- C5: after every group write — creation, and every update including a lead
change or a member-list replacement — the lead id is present in the stored
member set. -/
theorem group_writes_lead_in_members :
    (∀ (db : DB) (actor : Actor) (req : CreateGroupReq) (newOid : String) (newGid : Nat)
        (g : GroupRec),
        createGroupRoute db actor req newOid newGid = Except.ok g → g.lead ∈ g.members) ∧
    (∀ (db : DB) (g0 : GroupRec) (actor : Actor) (req : UpdateGroupReq) (g : GroupRec),
        updateGroupRoute db g0 actor req = Except.ok g → g.lead ∈ g.members) := by
  constructor
  · intro db actor req newOid newGid g h
    unfold createGroupRoute at h
    split at h
    · simp at h
    · split at h
      · split at h
        · simp at h
        · split at h
          · simp at h
          · split at h
            · simp at h
            · cases hv : validateMembers db req.memberIds with
              | error e => rw [hv] at h; simp [Bind.bind, Except.bind] at h
              | ok vm =>
                rw [hv] at h
                simp only [Bind.bind, Except.bind, Except.ok.injEq] at h
                subst h
                exact lead_mem_groupPreSaveLead _
      · simp at h
  · intro db g0 actor req g h
    unfold updateGroupRoute at h
    split at h
    · simp at h
    · cases hl : validateLeadUpdate db req.leadId with
      | error e => rw [hl] at h; simp [Bind.bind, Except.bind] at h
      | ok updLead =>
        rw [hl] at h
        simp only [Bind.bind, Except.bind] at h
        cases hm : computeMembersUpdate db updLead g0.lead req.memberIds with
        | error e => rw [hm] at h; simp at h
        | ok updMembers =>
          rw [hm] at h
          (try dsimp only at h)
          split at h
          · simp at h
          · cases h
            exact lead_mem_groupPreSaveLead _

/-- Witness for C5: a concrete creation whose caller omits the lead from the
member list, and a concrete member-list replacement; in both results the lead
is a member. -/
theorem group_writes_lead_in_members_witness :
    (createGroupRoute dbDemo actorAdmin
        { name := some "G2", description := some "d2", leadId := some oidManager
          memberIds := [oidEmpE] } "0123456789abcdef01234567" 2 =
      Except.ok
        { oid := "0123456789abcdef01234567", gid := 2, title := "G2", description := "d2"
          lead := oidManager, members := [oidEmpE, oidManager], tasks := []
          createdBy := oidAdmin, isActive := true } ∧
      ({ oid := "0123456789abcdef01234567", gid := 2, title := "G2", description := "d2"
         lead := oidManager, members := [oidEmpE, oidManager], tasks := []
         createdBy := oidAdmin, isActive := true } : GroupRec).lead ∈
        ({ oid := "0123456789abcdef01234567", gid := 2, title := "G2", description := "d2"
           lead := oidManager, members := [oidEmpE, oidManager], tasks := []
           createdBy := oidAdmin, isActive := true } : GroupRec).members) ∧
    (updateGroupRoute dbDemo groupDemo actorManager
        { title := none, description := none, leadId := none
          memberIds := some [oidEmpF], isActive := none } =
      Except.ok { groupDemo with members := [oidEmpF, oidManager] } ∧
      ({ groupDemo with members := [oidEmpF, oidManager] } : GroupRec).lead ∈
        ({ groupDemo with members := [oidEmpF, oidManager] } : GroupRec).members) :=
  ⟨⟨by rfl,
    group_writes_lead_in_members.1 dbDemo actorAdmin
      { name := some "G2", description := some "d2", leadId := some oidManager
        memberIds := [oidEmpE] } "0123456789abcdef01234567" 2 _ (by rfl)⟩,
   ⟨by rfl,
    group_writes_lead_in_members.2 dbDemo groupDemo actorManager
      { title := none, description := none, leadId := none
        memberIds := some [oidEmpF], isActive := none } _ (by rfl)⟩⟩

/-- A successful assignee-user validation returns exactly the truthy form of
the submitted field. -/
theorem validateAssignedUser_ok (db : DB) (o : Option String) (v : Option String)
    (h : validateAssignedUser db o = Except.ok v) : v = jsTruthy o := by
  unfold validateAssignedUser at h
  cases hjt : jsTruthy o with
  | none => rw [hjt] at h; cases h; rfl
  | some u =>
    rw [hjt] at h
    (try dsimp only at h)
    split at h
    · simp at h
    · split at h
      · simp at h
      · split at h
        · cases h; rfl
        · simp at h

/-- A successful assignee-group validation returns exactly the truthy form of
the submitted field. -/
theorem validateAssignedGroup_ok (db : DB) (o : Option String) (v : Option String)
    (h : validateAssignedGroup db o = Except.ok v) : v = jsTruthy o := by
  unfold validateAssignedGroup at h
  cases hjt : jsTruthy o with
  | none => rw [hjt] at h; cases h; rfl
  | some g =>
    rw [hjt] at h
    (try dsimp only at h)
    split at h
    · simp at h
    · split at h
      · simp at h
      · split at h
        · cases h; rfl
        · simp at h

/-- Every rejection of the assignee-user validation is a 400 invalid-input
rejection. -/
theorem validateAssignedUser_error (db : DB) (o : Option String) (e : RouteErr)
    (h : validateAssignedUser db o = Except.error e) : ∃ msg, e = RouteErr.invalidInput msg := by
  unfold validateAssignedUser at h
  cases hjt : jsTruthy o with
  | none => rw [hjt] at h; simp at h
  | some u =>
    rw [hjt] at h
    (try dsimp only at h)
    split at h
    · simp only [Except.error.injEq] at h; exact ⟨_, h.symm⟩
    · split at h
      · simp only [Except.error.injEq] at h; exact ⟨_, h.symm⟩
      · split at h
        · simp at h
        · simp only [Except.error.injEq] at h; exact ⟨_, h.symm⟩

/-- Every rejection of the assignee-group validation is a 400 invalid-input
rejection. -/
theorem validateAssignedGroup_error (db : DB) (o : Option String) (e : RouteErr)
    (h : validateAssignedGroup db o = Except.error e) : ∃ msg, e = RouteErr.invalidInput msg := by
  unfold validateAssignedGroup at h
  cases hjt : jsTruthy o with
  | none => rw [hjt] at h; simp at h
  | some g =>
    rw [hjt] at h
    (try dsimp only at h)
    split at h
    · simp only [Except.error.injEq] at h; exact ⟨_, h.symm⟩
    · split at h
      · simp only [Except.error.injEq] at h; exact ⟨_, h.symm⟩
      · split at h
        · simp at h
        · simp only [Except.error.injEq] at h; exact ⟨_, h.symm⟩

/-- A named assignee user that does not resolve to an active user makes the
validation fail with an invalid-input rejection. -/
theorem validateAssignedUser_bad (db : DB) (o : Option String) (u : String)
    (hjt : jsTruthy o = some u)
    (hbad : findUserById db u = none ∨ ∃ usr, findUserById db u = some usr ∧ usr.isActive = false) :
    ∃ msg, validateAssignedUser db o = Except.error (RouteErr.invalidInput msg) := by
  unfold validateAssignedUser
  rw [hjt]
  dsimp only
  by_cases hvo : isValidObjectId u = true
  · rcases hbad with hnone | ⟨usr, hfind, hact⟩
    · exact ⟨"Invalid or inactive user: " ++ u, by simp [hvo, hnone]⟩
    · exact ⟨"Invalid or inactive user: " ++ u, by simp [hvo, hfind, hact]⟩
  · exact ⟨"Invalid user ID: " ++ u, by simp [hvo]⟩

/-- A named assignee group that does not resolve to an active group makes the
validation fail with an invalid-input rejection. -/
theorem validateAssignedGroup_bad (db : DB) (o : Option String) (g : String)
    (hjt : jsTruthy o = some g)
    (hbad : findGroupById db g = none ∨ ∃ gr, findGroupById db g = some gr ∧ gr.isActive = false) :
    ∃ msg, validateAssignedGroup db o = Except.error (RouteErr.invalidInput msg) := by
  unfold validateAssignedGroup
  rw [hjt]
  dsimp only
  by_cases hvo : isValidObjectId g = true
  · rcases hbad with hnone | ⟨gr, hfind, hact⟩
    · exact ⟨"Invalid or inactive group: " ++ g, by simp [hvo, hnone]⟩
    · exact ⟨"Invalid or inactive group: " ++ g, by simp [hvo, hfind, hact]⟩
  · exact ⟨"Invalid group ID: " ++ g, by simp [hvo]⟩

/-- Every successful result of the assign endpoint satisfies the tagged-union
invariant: the only writes it performs are assignUser and assignGroup. -/
theorem assignTaskRoute_ok_consistent (db : DB) (role : Role) (t : TaskRec)
    (u g : Option String) (t' : TaskRec)
    (h : assignTaskRoute db role t u g = Except.ok t') :
    assignmentConsistent t'.assignedTo = true := by
  unfold assignTaskRoute at h
  repeat' split at h
  all_goals try simp at h
  all_goals cases h
  all_goals simp [assignUser, assignGroup, assignmentConsistent]

/-- Every successful result of the assigneeId branch of the field-update
endpoint satisfies the tagged-union invariant. -/
theorem patchAssigneePath_ok_consistent (db : DB) (t : TaskRec) (a : Option String)
    (t' : TaskRec) (h : patchAssigneePath db t a = Except.ok t') :
    assignmentConsistent t'.assignedTo = true := by
  unfold patchAssigneePath at h
  repeat' split at h
  all_goals try simp at h
  all_goals cases h
  all_goals simp [assignUser, removeAssignment, assignmentConsistent]

/-- One assignment operation preserves the tagged-union invariant. -/
theorem applyAssignOp_consistent (db : DB) (role : Role) (t : TaskRec) (op : AssignOp)
    (h : assignmentConsistent t.assignedTo = true) :
    assignmentConsistent ((applyAssignOp db role t op).assignedTo) = true := by
  cases op with
  | opAssignUser u => simp [applyAssignOp, assignUser, assignmentConsistent]
  | opAssignGroup g => simp [applyAssignOp, assignGroup, assignmentConsistent]
  | opRemove => simp [applyAssignOp, removeAssignment, assignmentConsistent]
  | opEndpoint u g =>
    cases hr : assignTaskRoute db role t u g with
    | ok t' =>
      simp only [applyAssignOp, hr]
      exact assignTaskRoute_ok_consistent db role t u g t' hr
    | error e =>
      simp only [applyAssignOp, hr]
      exact h
  | opPatchAssignee a =>
    cases hr : patchAssigneePath db t a with
    | ok t' =>
      simp only [applyAssignOp, hr]
      exact patchAssigneePath_ok_consistent db t a t' hr
    | error e =>
      simp only [applyAssignOp, hr]
      exact h

/-- Every successful creation satisfies the tagged-union invariant: the
both-named guard fires before the validated references are stored. -/
theorem createTaskRoute_ok_consistent (db : DB) (actor : Actor) (req : CreateTaskReq)
    (now : Nat) (newOid : String) (newTid : Nat) (t : TaskRec)
    (h : createTaskRoute db actor req now newOid newTid = Except.ok t) :
    assignmentConsistent t.assignedTo = true := by
  unfold createTaskRoute at h
  split at h
  · simp at h
  · split at h
    · simp at h
    · split at h
      · simp at h
      · split at h
        · simp at h
        · split at h
          · simp at h
          · rename_i hrole2 hreq2 hboth hprio hstat
            cases hu : validateAssignedUser db req.assignedUserId with
            | error e => rw [hu] at h; simp [Bind.bind, Except.bind] at h
            | ok vU =>
              rw [hu] at h
              simp only [Bind.bind, Except.bind] at h
              cases hg : validateAssignedGroup db req.assignedGroupId with
              | error e => rw [hg] at h; simp [Except.bind] at h
              | ok vG =>
                rw [hg] at h
                simp only [Except.bind] at h
                cases h
                have hU := validateAssignedUser_ok db req.assignedUserId vU hu
                have hG := validateAssignedGroup_ok db req.assignedGroupId vG hg
                cases hvU : vU with
                | none => simp [assignmentConsistent]
                | some xu =>
                  cases hvG : vG with
                  | none => simp [assignmentConsistent]
                  | some xg =>
                    exfalso
                    apply hboth
                    rw [← hU, ← hG, hvU, hvG]
                    rfl

/-- Under an authorized creator, every rejection of the create-task route is
a 400 invalid-input rejection. -/
theorem createTaskRoute_error_invalidInput (db : DB) (actor : Actor) (req : CreateTaskReq)
    (now : Nat) (newOid : String) (newTid : Nat) (e : RouteErr)
    (hrole : actor.role = Role.admin ∨ actor.role = Role.manager)
    (h : createTaskRoute db actor req now newOid newTid = Except.error e) :
    ∃ msg, e = RouteErr.invalidInput msg := by
  unfold createTaskRoute at h
  split at h
  · rename_i hneg
    exact absurd hrole hneg
  · split at h
    · simp only [Except.error.injEq] at h; exact ⟨_, h.symm⟩
    · split at h
      · simp only [Except.error.injEq] at h; exact ⟨_, h.symm⟩
      · split at h
        · simp only [Except.error.injEq] at h; exact ⟨_, h.symm⟩
        · split at h
          · simp only [Except.error.injEq] at h; exact ⟨_, h.symm⟩
          · cases hu : validateAssignedUser db req.assignedUserId with
            | error e' =>
              rw [hu] at h
              simp only [Bind.bind, Except.bind, Except.error.injEq] at h
              obtain ⟨msg, rfl⟩ := validateAssignedUser_error db req.assignedUserId e' hu
              exact ⟨msg, h.symm⟩
            | ok vU =>
              rw [hu] at h
              simp only [Bind.bind, Except.bind] at h
              cases hg : validateAssignedGroup db req.assignedGroupId with
              | error e' =>
                rw [hg] at h
                simp only [Except.bind, Except.error.injEq] at h
                obtain ⟨msg, rfl⟩ := validateAssignedGroup_error db req.assignedGroupId e' hg
                exact ⟨msg, h.symm⟩
              | ok vG =>
                rw [hg] at h
                simp [Except.bind] at h

/-- A creation request naming an assignee user or group that does not resolve
to an active record never produces a task. -/
theorem createTaskRoute_bad_assignee_not_ok (db : DB) (actor : Actor) (req : CreateTaskReq)
    (now : Nat) (newOid : String) (newTid : Nat)
    (hbad :
      (∃ u, jsTruthy req.assignedUserId = some u ∧
        (findUserById db u = none ∨ ∃ usr, findUserById db u = some usr ∧ usr.isActive = false)) ∨
      (∃ g, jsTruthy req.assignedGroupId = some g ∧
        (findGroupById db g = none ∨ ∃ gr, findGroupById db g = some gr ∧ gr.isActive = false))) :
    ∀ t, createTaskRoute db actor req now newOid newTid ≠ Except.ok t := by
  intro t h
  unfold createTaskRoute at h
  split at h
  · simp at h
  · split at h
    · simp at h
    · split at h
      · simp at h
      · split at h
        · simp at h
        · split at h
          · simp at h
          · rcases hbad with ⟨u, hjt, hbadu⟩ | ⟨g, hjt, hbadg⟩
            · obtain ⟨msg, hver⟩ := validateAssignedUser_bad db req.assignedUserId u hjt hbadu
              rw [hver] at h
              simp [Bind.bind, Except.bind] at h
            · cases hu : validateAssignedUser db req.assignedUserId with
              | error e => rw [hu] at h; simp [Bind.bind, Except.bind] at h
              | ok vU =>
                rw [hu] at h
                simp only [Bind.bind, Except.bind] at h
                obtain ⟨msg, hver⟩ := validateAssignedGroup_bad db req.assignedGroupId g hjt hbadg
                rw [hver] at h
                simp [Except.bind] at h

/-- C1: a task whose assignment satisfies the tagged-union invariant keeps
satisfying it under every sequence of assignment operations (the model
methods assignUser, assignGroup and removeAssignment, the assign endpoint,
and the assigneeId branch of the field-update endpoint); every created task
satisfies it; and an authorized assign request naming both a user and a group
is rejected with a 400 before any write. -/
theorem assign_ops_never_both :
    (∀ (db : DB) (role : Role) (t0 : TaskRec) (ops : List AssignOp),
        assignmentConsistent t0.assignedTo = true →
        assignmentConsistent ((ops.foldl (applyAssignOp db role) t0).assignedTo) = true) ∧
    (∀ (db : DB) (actor : Actor) (req : CreateTaskReq) (now : Nat) (newOid : String)
        (newTid : Nat) (t : TaskRec),
        createTaskRoute db actor req now newOid newTid = Except.ok t →
        assignmentConsistent t.assignedTo = true) ∧
    (∀ (db : DB) (role : Role) (t : TaskRec) (userId groupId : Option String) (su sg : String),
        jsTruthy userId = some su → jsTruthy groupId = some sg →
        (role = Role.admin ∨ role = Role.manager) →
        assignTaskRoute db role t userId groupId =
          Except.error (RouteErr.invalidInput
            "Task can be assigned to either a user OR a group, not both")) := by
  refine ⟨?_, ?_, ?_⟩
  · intro db role t0 ops
    induction ops generalizing t0 with
    | nil => intro h; simpa using h
    | cons op rest ih =>
      intro h
      rw [List.foldl_cons]
      exact ih _ (applyAssignOp_consistent db role t0 op h)
  · exact fun db actor req now newOid newTid t h =>
      createTaskRoute_ok_consistent db actor req now newOid newTid t h
  · intro db role t userId groupId su sg hu hg hrole
    rcases hrole with rfl | rfl <;> simp [assignTaskRoute, hu, hg]

/-- Witness for C1: a concrete operation sequence, a concrete successful
creation, and a concrete both-named rejection. -/
theorem assign_ops_never_both_witness :
    (assignmentConsistent taskDemo.assignedTo = true ∧
      assignmentConsistent
        (([AssignOp.opAssignGroup oidGroup,
           AssignOp.opEndpoint (some oidEmpF) none,
           AssignOp.opRemove].foldl (applyAssignOp dbDemo Role.manager) taskDemo).assignedTo) = true) ∧
    (createTaskRoute dbDemo actorManager
        { title := some "N", description := some "nd", priority := none, due := none
          status := none, assignedUserId := some oidEmpE, assignedGroupId := none }
        3 "0123456789abcdef89abcdef" 7 =
      Except.ok
        { oid := "0123456789abcdef89abcdef", tid := 7, title := "N", description := "nd"
          priority := "Medium", due := none, createdBy := oidManager, comments := []
          assignedTo := { user := some oidEmpE, group := none }
          status := { status := "Todo", updatedAt := 3, updatedBy := oidManager }
          statusHistory := [] } ∧
      assignmentConsistent
        ({ user := some oidEmpE, group := none } : Assignment) = true) ∧
    assignTaskRoute dbDemo Role.manager taskDemo (some oidEmpF) (some oidGroup) =
      Except.error (RouteErr.invalidInput
        "Task can be assigned to either a user OR a group, not both") :=
  ⟨⟨by decide,
    assign_ops_never_both.1 dbDemo Role.manager taskDemo
      [AssignOp.opAssignGroup oidGroup, AssignOp.opEndpoint (some oidEmpF) none,
       AssignOp.opRemove] (by decide)⟩,
   ⟨by rfl,
    assign_ops_never_both.2.1 dbDemo actorManager
      { title := some "N", description := some "nd", priority := none, due := none
        status := none, assignedUserId := some oidEmpE, assignedGroupId := none }
      3 "0123456789abcdef89abcdef" 7 _ (by rfl)⟩,
   assign_ops_never_both.2.2 dbDemo Role.manager taskDemo (some oidEmpF) (some oidGroup)
     oidEmpF oidGroup (by decide) (by decide) (Or.inr rfl)⟩

/-- C7: an authorized task-creation request naming an assignee user or group
that does not exist or is inactive is rejected with a 400 invalid-input
error, and the task collection is unchanged. -/
theorem createTask_invalid_assignee_rejected :
    ∀ (db : DB) (actor : Actor) (req : CreateTaskReq) (now : Nat) (newOid : String)
      (newTid : Nat),
    (actor.role = Role.admin ∨ actor.role = Role.manager) →
    ((∃ u, jsTruthy req.assignedUserId = some u ∧
        (findUserById db u = none ∨ ∃ usr, findUserById db u = some usr ∧ usr.isActive = false)) ∨
     (∃ g, jsTruthy req.assignedGroupId = some g ∧
        (findGroupById db g = none ∨ ∃ gr, findGroupById db g = some gr ∧ gr.isActive = false))) →
    (∃ msg, createTaskRoute db actor req now newOid newTid =
        Except.error (RouteErr.invalidInput msg)) ∧
    createTaskStore db actor req now newOid newTid = db := by
  intro db actor req now newOid newTid hrole hbad
  cases hr : createTaskRoute db actor req now newOid newTid with
  | ok t =>
    exact absurd hr (createTaskRoute_bad_assignee_not_ok db actor req now newOid newTid hbad t)
  | error e =>
    obtain ⟨msg, rfl⟩ :=
      createTaskRoute_error_invalidInput db actor req now newOid newTid e hrole hr
    refine ⟨⟨msg, rfl⟩, ?_⟩
    simp [createTaskStore, hr]

/-- Witness for C7: a manager naming a nonexistent user id and a manager
naming the deactivated demo user; both requests are rejected and the store is
untouched. -/
theorem createTask_invalid_assignee_rejected_witness :
    ((∃ msg, createTaskRoute dbDemo actorManager
        { title := some "N", description := some "nd", priority := none, due := none
          status := none, assignedUserId := some "0123456789abcdef01234567"
          assignedGroupId := none } 3 "0123456789abcdefdeadbeef" 8 =
          Except.error (RouteErr.invalidInput msg)) ∧
      createTaskStore dbDemo actorManager
        { title := some "N", description := some "nd", priority := none, due := none
          status := none, assignedUserId := some "0123456789abcdef01234567"
          assignedGroupId := none } 3 "0123456789abcdefdeadbeef" 8 = dbDemo) ∧
    ((∃ msg, createTaskRoute dbDemo actorManager
        { title := some "N", description := some "nd", priority := none, due := none
          status := none, assignedUserId := some userInactive.oid
          assignedGroupId := none } 3 "0123456789abcdefdeadbeef" 8 =
          Except.error (RouteErr.invalidInput msg)) ∧
      createTaskStore dbDemo actorManager
        { title := some "N", description := some "nd", priority := none, due := none
          status := none, assignedUserId := some userInactive.oid
          assignedGroupId := none } 3 "0123456789abcdefdeadbeef" 8 = dbDemo) :=
  ⟨createTask_invalid_assignee_rejected dbDemo actorManager
      { title := some "N", description := some "nd", priority := none, due := none
        status := none, assignedUserId := some "0123456789abcdef01234567"
        assignedGroupId := none } 3 "0123456789abcdefdeadbeef" 8
      (Or.inr rfl) (Or.inl ⟨"0123456789abcdef01234567", by decide, Or.inl (by decide)⟩),
   createTask_invalid_assignee_rejected dbDemo actorManager
      { title := some "N", description := some "nd", priority := none, due := none
        status := none, assignedUserId := some userInactive.oid
        assignedGroupId := none } 3 "0123456789abcdefdeadbeef" 8
      (Or.inr rfl) (Or.inl ⟨userInactive.oid, by decide, Or.inr ⟨userInactive, by decide, by decide⟩⟩)⟩

/-- C4 (code bug): the comment endpoint spreads the un-awaited Promise of the
async scope builder, so the lookup it performs is unscoped.  Concretely:
employee F is outside the visibility scope of the demo task — the scoped
lookup the endpoint intends would find nothing — yet the endpoint finds the
task and appends F's comment instead of rejecting with 404. -/
theorem addComment_scope_bug :
    scopeMatches (restrictQueryByRole dbDemo.groups actorEmpF) taskDemo = false ∧
    findTaskScoped dbDemo (restrictQueryByRole dbDemo.groups actorEmpF) taskDemo.oid = none ∧
    addCommentRoute dbDemo actorEmpF taskDemo.oid "hi" 9 =
      Except.ok (addComment taskDemo actorEmpF.oid "hi" 9) := by
  refine ⟨by decide, by decide, by rfl⟩

/-- The duplicate guard of the add-task-to-group route can never fire on a
well-formed ObjectId: the loose-equality comparison coerces each subdocument
to an object rendering that starts with a brace, while every character of a
valid id is a hex digit. -/
theorem addTaskDuplicateCheck_never_true (g : GroupRec) (id : String)
    (h : isValidObjectId id = true) : addTaskDuplicateCheck g id = false := by
  unfold addTaskDuplicateCheck
  apply List.any_eq_false.mpr
  intro e he
  simp only [jsLooseEqIdEntry, decide_eq_true_eq]
  intro heq
  subst heq
  unfold isValidObjectId at h
  rw [Bool.and_eq_true] at h
  have h2 := h.2
  rw [show (entryRender e).data =
      '\x7b' :: (" taskId: " ++ e.taskId ++ ", status: " ++ e.status ++ " \x7d").data from rfl] at h2
  rw [List.all_cons, Bool.and_eq_true] at h2
  exact absurd h2.1 (by decide)

/-- C6 (code bug): the demo group ledger already contains the demo task id,
yet the route does not return the duplicate-conflict rejection — the
`includes` guard compares subdocuments against the id string and never
matches — and control reaches the push; the model-level addTask likewise
updates the existing entry in place instead of rejecting. -/
theorem addTask_duplicate_not_rejected :
    groupDemo.tasks.map (fun e => e.taskId) = [oidTask] ∧
    addTaskToGroupRoute (some groupDemo) actorManager (some oidTask) =
      AddTaskResult.pushAttempted oidTask ∧
    groupAddTask groupDemo oidTask oidManager "InProgress" 5 =
      { groupDemo with
        tasks := [{ taskId := oidTask, status := "InProgress", assignedAt := 5
                    assignedBy := oidManager }] } := by
  refine ⟨by decide, by decide, by decide⟩

/-- C9 (code bug): reopening sets the live status to Todo and appends exactly
one history entry with the reopening comment attributed to the actor, and it
sets the isReopened property on the in-memory document — but isReopened is
not a schema path, so the strict-mode save drops it and the flag reads back
false after persistence. -/
theorem reopen_flag_not_persisted :
    (reopenRoute taskDone oidAdmin 50).isReopened = true ∧
    (loadTask (strictSave (reopenRoute taskDone oidAdmin 50))).isReopened = false ∧
    (strictSave (reopenRoute taskDone oidAdmin 50)).status.status = "Todo" ∧
    (strictSave (reopenRoute taskDone oidAdmin 50)).statusHistory =
      taskDone.statusHistory ++
        [{ status := "Todo", updatedAt := 50, updatedBy := oidAdmin
           comment := some "Task reopened" }] := by
  refine ⟨by decide, by decide, by decide, by decide⟩

end TaskManager
